import Mathlib

/-!
Verification development for the Anamalia prompt pipeline web viewer
(`webviewer/app.js`). The definitions below are a shallow embedding of the
Structured Prompt Assembly Engine: chunk classification (`generateChunkId`),
permutation planning (`updateTennerStatus`), camera/tripod canonical sync
(`syncTripodHeightToCamera`), aspect-ratio inference
(`syncAspectRatioToDimensions`), and the ordered prompt-composition pipeline
(`previewPrompt`). JavaScript strings are modelled as Lean `String`, JS
numbers (where they matter) as exact rationals, with `Option ℚ` standing for
possibly non-finite values (`none` = `NaN` / `±Infinity`), and DOM reads as
fields of an explicit `Selection` record.

Rational arithmetic is implemented through `mkRat` and integer arithmetic
(`qSub`, `qAbs`, `intDivQ`, `qDiv`) so that every definition evaluates inside
the kernel; the lemmas `qSub_eq`, `qAbs_eq`, `intDivQ_eq` and `qDiv_eq` prove
these agree with the ordinary field operations on `ℚ`.
-/

/-! ## Kernel-computable rational helpers -/

/-- `(n : ℚ) / d` for integer numerator and denominator, written with
`mkRat` so that it evaluates in the kernel; division by zero yields `0`. -/
def intDivQ (n d : ℤ) : ℚ :=
  if 0 ≤ d then mkRat n d.toNat else mkRat (-n) (-d).toNat

/-- Subtraction `a - b` on `ℚ`, written with `mkRat`. -/
def qSub (a b : ℚ) : ℚ :=
  mkRat (a.num * (b.den : ℤ) - b.num * (a.den : ℤ)) (a.den * b.den)

/-- Absolute value on `ℚ`, written with `mkRat`. -/
def qAbs (a : ℚ) : ℚ :=
  if a < 0 then mkRat (-a.num) a.den else a

/-- Division `a / b` on `ℚ`, written with `mkRat`. -/
def qDiv (a b : ℚ) : ℚ :=
  intDivQ (a.num * (b.den : ℤ)) ((a.den : ℤ) * b.num)

/-! ## JS string primitives -/

/-- ASCII digit test, the semantics of the regex class `\d`. -/
def isAsciiDigit (c : Char) : Bool := '0' ≤ c && c ≤ '9'

/-- Whitespace as matched by the JS regex class `\s` and by `String.trim`
(space, tab, line feed, vertical tab, form feed, carriage return, NBSP,
line/paragraph separators, BOM). -/
def isJsSpace (c : Char) : Bool :=
  c = ' ' || c = '\t' || c = '\n' || c = '\x0b' || c = '\x0c' || c = '\r' ||
  c = ' ' || c = ' ' || c = ' ' || c = '﻿'

/-- JS line terminators, the characters the regex `.` does not match. -/
def isLineTerm (c : Char) : Bool :=
  c = '\n' || c = '\r' || c = ' ' || c = ' '

/-- JS `String.prototype.trim`: strip `\s` characters from both ends. -/
def jsTrim (s : String) : String :=
  ⟨((s.data.dropWhile isJsSpace).reverse.dropWhile isJsSpace).reverse⟩

/-- Value of a list of decimal digit characters. -/
def digitsToNat (ds : List Char) : Nat :=
  ds.foldl (fun a c => a * 10 + (c.toNat - '0'.toNat)) 0

/-- JS `parseInt(s)` (decimal): skip leading whitespace, optional sign,
maximal run of digits; `none` models `NaN`. -/
def jsParseInt (s : String) : Option Int :=
  let cs := s.data.dropWhile isJsSpace
  let signAndRest : Int × List Char :=
    match cs with
    | '-' :: t => (-1, t)
    | '+' :: t => (1, t)
    | t => (1, t)
  let ds := signAndRest.2.takeWhile isAsciiDigit
  if ds.isEmpty then none
  else some (signAndRest.1 * (digitsToNat ds : Int))

/-- JS `Number(s)` on a decimal string: the empty (or all-whitespace) string
converts to `0`; otherwise an optional sign, integer digits and an optional
fraction must consume the whole string; `none` models `NaN`. -/
def jsNumber (s : String) : Option ℚ :=
  let cs := (jsTrim s).data
  if cs.isEmpty then some 0 else
  let signAndRest : ℤ × List Char :=
    match cs with
    | '-' :: t => (-1, t)
    | '+' :: t => (1, t)
    | t => (1, t)
  let ip := signAndRest.2.takeWhile isAsciiDigit
  let r1 := signAndRest.2.dropWhile isAsciiDigit
  match r1 with
  | [] =>
    if ip.isEmpty then none
    else some (mkRat (signAndRest.1 * (digitsToNat ip : ℤ)) 1)
  | '.' :: fp =>
    let fd := fp.takeWhile isAsciiDigit
    let r2 := fp.dropWhile isAsciiDigit
    if !r2.isEmpty then none
    else if ip.isEmpty && fd.isEmpty then none
    else some (mkRat
      (signAndRest.1 * ((digitsToNat ip : ℤ) * 10 ^ fd.length + (digitsToNat fd : ℤ)))
      (10 ^ fd.length))
  | _ => none

/-- The first-occurrence replacement step of JS
`String.prototype.replace(pat, rep)` with a string pattern, on character
lists. -/
def replaceFirstAux (pat rep : List Char) : List Char → List Char
  | [] => []
  | c :: cs =>
    if pat.isPrefixOf (c :: cs) then rep ++ (c :: cs).drop pat.length
    else c :: replaceFirstAux pat rep cs

/-- JS `String.prototype.replace(pat, rep)` with a string pattern:
replaces only the first occurrence of `pat` (if any). -/
def jsReplaceFirst (s pat rep : String) : String :=
  ⟨replaceFirstAux pat.data rep.data s.data⟩

/-- JS `String.prototype.toUpperCase` (ASCII range). -/
def jsToUpperCase (s : String) : String := ⟨s.data.map Char.toUpper⟩

/-- Capture group semantics of the regex tail `\s*(.+)$` (no `m`/`s` flags)
applied to the character list `cs`: the greedy whitespace run backtracks
until the remainder is non-empty and free of line terminators. When the
whole remainder is whitespace, only the last character can be captured, and
only when it is not itself a line terminator. -/
def jsCaptureTail (cs : List Char) : Option (List Char) :=
  let tl := cs.dropWhile isJsSpace
  if !tl.isEmpty then
    if tl.any isLineTerm then none else some tl
  else
    match cs.getLast? with
    | none => none
    | some c => if isLineTerm c then none else some [c]

/-- The regex `/^T1-\d+:\s*(.+)$/` of `previewPrompt` (line 1981): on a
match, returns the captured character name. -/
def jsMatchT1Specific (s : String) : Option String :=
  match s.data with
  | 'T' :: '1' :: '-' :: rest =>
    let ds := rest.takeWhile isAsciiDigit
    let r2 := rest.dropWhile isAsciiDigit
    if ds.isEmpty then none else
    match r2 with
    | ':' :: r3 => (jsCaptureTail r3).map (fun l => ⟨l⟩)
    | _ => none
  | _ => none

/-- The regex `/^(T\d+)-(\d+):\s*(.+)$/` of `previewPrompt` (line 2158):
on a match, returns the captured descriptor (third group). -/
def jsMatchTennerSpecific (s : String) : Option String :=
  match s.data with
  | 'T' :: rest =>
    let d1 := rest.takeWhile isAsciiDigit
    let r1 := rest.dropWhile isAsciiDigit
    if d1.isEmpty then none else
    match r1 with
    | '-' :: r2 =>
      let d2 := r2.takeWhile isAsciiDigit
      let r3 := r2.dropWhile isAsciiDigit
      if d2.isEmpty then none else
      match r3 with
      | ':' :: r4 => (jsCaptureTail r4).map (fun l => ⟨l⟩)
      | _ => none
    | _ => none
  | _ => none

/-! ## Lexicographic string order and `Array.prototype.sort` -/

/-- Strict lexicographic comparison of character lists by code point, the
order used by the default comparator of JS `Array.prototype.sort` on
strings. -/
def charListLt : List Char → List Char → Bool
  | _, [] => false
  | [], _ :: _ => true
  | a :: as, b :: bs =>
    if a < b then true
    else if b < a then false
    else charListLt as bs

/-- Non-strict string comparison derived from `charListLt`. -/
def jsLeStr (a b : String) : Bool := !(charListLt b.data a.data)

/-- JS `Array.prototype.sort()` with the default comparator on an array of
strings, modelled as insertion sort for the total order `jsLeStr`. -/
def jsSort (l : List String) : List String :=
  l.insertionSort (fun a b => jsLeStr a b = true)

/-! ## Static tables (app.js) -/

/-- `loadChunkMappings` (app.js lines 1245-1271): the static chunk table,
in declaration order. -/
def loadChunkMappings : List (String × List String) :=
  [("CHUNK1", ["T1", "T2", "T4"]),
   ("CHUNK2", ["T1", "T3", "T5"]),
   ("CHUNK3", ["T6", "T7"]),
   ("CHUNK4", ["T1", "T6", "T8"]),
   ("CHUNK5", ["T2", "T3", "T6"]),
   ("CHUNK6", ["T1", "T2", "T3"]),
   ("CHUNK7", ["T4", "T5", "T6"]),
   ("CHUNK8", ["T1", "T4", "T7"]),
   ("CHUNK9", ["T2", "T5", "T8"]),
   ("CHUNK10", ["T3", "T6", "T9"]),
   ("CHUNK11", ["T1", "T5", "T9"]),
   ("CHUNK12", ["T2", "T4", "T8"]),
   ("CHUNK13", ["T3", "T7", "T10"]),
   ("CHUNK14", ["T1", "T2", "T5"]),
   ("CHUNK15", ["T4", "T6", "T8"]),
   ("CHUNK16", ["T2", "T3", "T7"]),
   ("CHUNK17", ["T1", "T3", "T6"]),
   ("CHUNK18", ["T18"]),
   ("CHUNK19", ["T19"]),
   ("CHUNK20", ["T20"])]

/-- `arraysEqual` (app.js lines 1273-1275): same length and elementwise
equal. -/
def arraysEqual (a b : List String) : Bool :=
  a.length == b.length && (List.zip a b).all (fun p => p.1 == p.2)

/-- `generateChunkId` (app.js lines 1226-1243): empty selection yields the
empty string; otherwise the input is sorted (JS `sort` mutates in place, so
the later `join` also sees the sorted array) and compared against each
chunk's sorted dimension list in declaration order; with no match, a
`CUSTOM_` identifier is synthesized from the sorted ids. The
`selectedSpecifics` and `mode` parameters are accepted and ignored, as in
the source. -/
def generateChunkId (selectedTenners _selectedSpecifics : List String)
    (_mode : String) : String :=
  if selectedTenners.isEmpty then "" else
  let sorted := jsSort selectedTenners
  match loadChunkMappings.find? (fun p => arraysEqual sorted (jsSort p.2)) with
  | some p => p.1
  | none => "CUSTOM_" ++ String.intercalate "_" sorted

/-- `cameraHeightMapping` (app.js lines 501-512): the canonical
camera-to-tripod-height table. -/
def cameraHeightMapping : List (String × String) :=
  [("camera_001", "1.0"),
   ("camera_002", "0.75"),
   ("camera_003", "0.5"),
   ("camera_004", "1.5"),
   ("camera_005", "1.0"),
   ("camera_006", "1.0"),
   ("camera_007", "1.0"),
   ("camera_008", "1.0"),
   ("camera_009", "1.0"),
   ("camera_010", "1.0")]

/-- Property lookup `this.cameraHeightMapping[cameraValue]`: `none` models
`undefined`. -/
def cameraHeight (cameraValue : String) : Option String :=
  (cameraHeightMapping.find? (fun p => p.1 == cameraValue)).map (fun p => p.2)

/-- The ten camera ids of the UI (camera_001 .. camera_010). -/
def cameraIds : List String :=
  ["camera_001", "camera_002", "camera_003", "camera_004", "camera_005",
   "camera_006", "camera_007", "camera_008", "camera_009", "camera_010"]

/-- The tripod-height dropdown state read and written by
`syncTripodHeightToCamera`. -/
structure TripodState where
  value : String
  disabled : Bool
  deriving Repr, DecidableEq

/-- `syncTripodHeightToCamera` (app.js lines 528-542): a camera with a
canonical height overwrites the tripod-height field and disables it; any
other value (no canonical height, modelling JS falsiness of `undefined` and
of the empty string) re-enables the field and leaves its value alone. -/
def syncTripodHeightToCamera (cameraValue : String) (st : TripodState) :
    TripodState :=
  match cameraHeight cameraValue with
  | some h => if h = "" then { value := st.value, disabled := false }
              else { value := h, disabled := true }
  | none => { value := st.value, disabled := false }

/-! ## Tenner status panel (`updateTennerStatus`) -/

/-- The `selectedTenners` filter applied to the three Tenner dropdown
values (app.js line 1112). -/
def selectedTennersOf (t1 t2 t3 : String) : List String :=
  [t1, t2, t3].filter (fun t => t != "" && t != "none")

/-- Permutation counts hard-coded in the three batch-mode branches of
`updateTennerStatus` (app.js lines 1159, 1170, 1181); `none` when no branch
reports a count. -/
def batchPermutationsReported (selectedTenners : List String) : Option Nat :=
  if selectedTenners.length = 1 then some 10
  else if selectedTenners.length = 2 then some 100
  else if selectedTenners.length = 3 then some 1000
  else none

/-- `Math.pow(10, selectedTenners.length)` as computed by `previewPrompt`
in batch mode (app.js line 2179). -/
def batchPermutationCount (selectedTenners : List String) : Nat :=
  10 ^ selectedTenners.length

/-- The status panel state written by `updateTennerStatus`: the status
line, whether the chunk-id block is displayed, and its text. -/
structure TennerStatusView where
  statusText : String
  chunkVisible : Bool
  chunkIdText : String
  deriving Repr, DecidableEq

/-- `updateTennerStatus` (app.js lines 1106-1192) as a transformation of
the status panel. `modeRaw` is the checked radio value (empty means no
checked radio, defaulting to `single`); `t1 t2 t3` the Tenner dropdowns;
`s1 s2 s3` the specific-option dropdowns; `prev` the current panel state,
returned unchanged by branches that do not write it. -/
def updateTennerStatus (modeRaw t1 t2 t3 s1 s2 s3 : String)
    (prev : TennerStatusView) : TennerStatusView :=
  let mode := if modeRaw = "" then "single" else modeRaw
  let selectedTenners := selectedTennersOf t1 t2 t3
  if mode = "single" then
    let selectedSpecifics := [s1, s2, s3].filter (fun s => s != "")
    if selectedTenners.length = 0 then
      { statusText := "Select Tenners to see combination count",
        chunkVisible := false, chunkIdText := prev.chunkIdText }
    else if selectedSpecifics.length = 0 then
      { statusText := "Single mode: " ++ toString selectedTenners.length ++
          " Tenner(s) selected - choose specific options",
        chunkVisible := true,
        chunkIdText := generateChunkId selectedTenners [] mode }
    else
      { statusText := "Single mode: " ++ toString selectedSpecifics.length ++
          " specific option(s) selected",
        chunkVisible := true,
        chunkIdText := generateChunkId selectedTenners selectedSpecifics mode }
  else
    if selectedTenners.length = 0 then
      { statusText := "Select Tenners to see combination count",
        chunkVisible := false, chunkIdText := prev.chunkIdText }
    else if selectedTenners.length = 1 then
      { statusText := "1 Tenner selected: 10 permutations (10¹)",
        chunkVisible := true,
        chunkIdText := generateChunkId selectedTenners [] mode }
    else if selectedTenners.length = 2 then
      { statusText := "2 Tenners selected: 100 permutations (10²)",
        chunkVisible := true,
        chunkIdText := generateChunkId selectedTenners [] mode }
    else if selectedTenners.length = 3 then
      { statusText := "3 Tenners selected: 1000 permutations (10³)",
        chunkVisible := true,
        chunkIdText := generateChunkId selectedTenners [] mode }
    else prev

/-! ## Phrase dictionaries local to `previewPrompt` (app.js lines 2033-2124) -/

/-- Lighting phrase dictionary (app.js lines 2033-2044). -/
def lightingPhrases : List (String × String) :=
  [("lighting_001",
    "Warm, directional late-afternoon sunlight from front-left at 45°, soft fill light from right, subtle floor shadow, gently contrasted stop-motion studio lighting"),
   ("lighting_002",
    "Soft, even overhead lighting with 360° ambient fill, minimal shadows, warm tungsten tone, cozy stop-motion studio atmosphere"),
   ("lighting_003",
    "Sharp, dramatic lighting from front-left at 30°, minimal back fill, defined shadows with high contrast, cinematic stop-motion studio lighting"),
   ("lighting_004",
    "Clean, even overhead lighting with 360° fill, soft even shadows, neutral color temperature, professional stop-motion studio lighting"),
   ("lighting_005",
    "Warm sunset backlight from back-right at 60°, soft warm fill from front, elongated soft shadows, golden hour stop-motion studio lighting"),
   ("lighting_006",
    "Cool moonlight from front-left at 15°, minimal cool fill, soft defined shadows, blue-tinted stop-motion studio lighting"),
   ("lighting_007",
    "Warm candlelight from front-left at 45°, soft warm ambient from below, flickering soft shadows, intimate stop-motion studio lighting"),
   ("lighting_008",
    "Bright daylight from front-left at 30°, strong fill from right, moderate shadows, natural stop-motion studio lighting"),
   ("lighting_009",
    "Diffused overcast lighting from overhead, 360° soft fill, minimal contrast, natural stop-motion studio lighting"),
   ("lighting_010",
    "Warm firelight from front-left at 30°, soft warm ambient from below, dancing soft shadows, cozy stop-motion studio lighting")]

/-- Texture phrase dictionary (app.js lines 2058-2069). -/
def texturePhrases : List (String × String) :=
  [("texture_001",
    "Character crafted from finely felted wool with visible fiber texture, hyper-realistic eyes and nose with natural reflections, matte felted surfaces for body, slight specular highlights on eyes and nostrils"),
   ("texture_002",
    "Photographed like a real miniature puppet under macro lens lighting, shallow depth of field, cinematic realism"),
   ("texture_003",
    "Wardrobe items in natural fabrics with visible weave texture, soft drape, minimal specular highlights, matte fabric finish"),
   ("texture_004",
    "Props crafted from aged wood with visible grain texture, weathered patina, warm wood reflections, hand-crafted finish"),
   ("texture_005",
    "Ceramic items with smooth glaze finish, subtle hand-crafted imperfections, controlled specular highlights, authentic pottery feel"),
   ("texture_006",
    "Metal hardware with aged patina, slight oxidation, authentic metallic reflections, weathered finish"),
   ("texture_007",
    "Glass items with clear transparency, subtle light refraction, authentic glass reflections, crystal clarity"),
   ("texture_008",
    "Leather items with natural grain texture, supple surface, authentic leather sheen, hand-tooled finish"),
   ("texture_009",
    "Paper items with visible fiber texture, slight age yellowing, matte finish, authentic paper feel"),
   ("texture_010",
    "Stone items with natural grain texture, mineral veining, authentic stone reflections, natural finish")]

/-- Film-stock phrase dictionary (app.js lines 2084-2095). -/
def filmStockPhrases : List (String × String) :=
  [("kodak_portra_400",
    "Shot on Kodak Portra 400 film with warm color palette, natural skin tones, and fine grain"),
   ("kodak_ultramax_400",
    "Shot on Kodak Ultramax 400 film with vibrant colors, high contrast, and medium grain"),
   ("fuji_superia_400",
    "Shot on Fuji Superia 400 film with cool color cast, sharp detail, and fine grain"),
   ("ilford_hp5_400",
    "Shot on Ilford HP5 400 black and white film with rich contrast, fine grain, and classic monochrome aesthetic"),
   ("kodak_gold_200",
    "Shot on Kodak Gold 200 film with warm, saturated colors and fine grain"),
   ("fuji_velvia_50",
    "Shot on Fuji Velvia 50 slide film with ultra-saturated colors, high contrast, and extremely fine grain"),
   ("kodak_tmax_100",
    "Shot on Kodak T-Max 100 black and white film with ultra-fine grain, high sharpness, and smooth tonal gradations"),
   ("agfa_vista_200",
    "Shot on Agfa Vista 200 film with natural color reproduction and fine grain"),
   ("lomography_color_400",
    "Shot on Lomography Color 400 film with vintage color palette, increased grain, and retro aesthetic"),
   ("cinestill_800t",
    "Shot on Cinestill 800T film with tungsten color balance, warm tones, and cinematic grain")]

/-- Camera description dictionary with height placeholder (app.js lines 2113-2124). -/
def cameraDescriptions : List (String × String) :=
  [("camera_001",
    "Captured on a miniature stop-motion stage using a fixed camera at 35mm lens, tripod height {HEIGHT}, angled 0° downward, positioned at stage center"),
   ("camera_002",
    "Captured on a miniature stop-motion stage using a fixed camera at 35mm lens, tripod height {HEIGHT}, angled 5° downward, positioned at stage center"),
   ("camera_003",
    "Captured on a miniature stop-motion stage using a fixed camera at 35mm lens, tripod height {HEIGHT}, angled 10° upward, positioned at stage center"),
   ("camera_004",
    "Captured on a miniature stop-motion stage using a fixed camera at 35mm lens, tripod height {HEIGHT}, angled 5° downward, positioned at stage center"),
   ("camera_005",
    "Captured on a miniature stop-motion stage using a fixed camera at 35mm lens, tripod height {HEIGHT}, angled 0° downward, positioned at stage center, camera rotated 45° left"),
   ("camera_006",
    "Captured on a miniature stop-motion stage using a fixed camera at 35mm lens, tripod height {HEIGHT}, angled 0° downward, positioned at stage center, camera rotated 45° right"),
   ("camera_007",
    "Captured on a miniature stop-motion stage using a fixed camera at 35mm lens, tripod height {HEIGHT}, angled 0° downward, positioned at stage center, camera rotated 90° left"),
   ("camera_008",
    "Captured on a miniature stop-motion stage using a fixed camera at 35mm lens, tripod height {HEIGHT}, angled 0° downward, positioned at stage center, camera rotated 135° left"),
   ("camera_009",
    "Captured on a miniature stop-motion stage using a fixed camera at 50mm lens, tripod height {HEIGHT}, angled 0° downward, positioned at stage center"),
   ("camera_010",
    "Captured on a miniature stop-motion stage using a fixed camera at 24mm lens, tripod height {HEIGHT}, angled 0° downward, positioned at stage center")]

/-- `getFilterValue` (app.js lines 560-569): the value `"default"` and the
empty value fall back to the supplied default. -/
def getFilterValue (value defaultValue : String) : String :=
  if value = "default" then defaultValue
  else if value = "" then defaultValue
  else value

/-- Special green-screen scene text (app.js line 2021). -/
def greenScreenScenePhrase : String :=
  " captured on a miniature stop-motion stage with chroma-key green backdrop. Floor: vibrant green (#00FF00) matte surface. Wall: vibrant green (#00FF00) matte surface. 90-degree junction visible. Character maintains felted wool texture with natural contact shadows falling on green floor"

/-- Tape-markings extension of the green-screen text (app.js line 2024). -/
def tapeMarkingsPhrase : String :=
  ". White T-mark tape at center stage position. Yellow spike tape strips marking character positions. Subtle reference marks at stage corners. Tape markings appear as physical elements on green floor"

/-- Lighting fragment of `previewPrompt` (app.js lines 2031-2051):
dictionary hit or literal fallback via `replace('_', ' ')`. -/
def lightingFragment (lighting : String) : String :=
  if lighting ≠ "all" then
    match lightingPhrases.lookup lighting with
    | some p => " with " ++ p
    | none => " with " ++ jsReplaceFirst lighting "_" " " ++ " lighting"
  else ""

/-- Film-stock fragment of `previewPrompt` (app.js lines 2082-2102):
dictionary hit or literal fallback via `replace('_', ' ')`. -/
def filmStockFragment (filmStock : String) : String :=
  if filmStock ≠ "" ∧ filmStock ≠ "all" then
    match filmStockPhrases.lookup filmStock with
    | some p => ". " ++ p
    | none => ". Shot on " ++ jsReplaceFirst filmStock "_" " " ++ " film"
  else ""

/-! ## Aspect-ratio arithmetic -/

/-- JS `split(sep)` step on character lists. -/
def splitOnCharAux (sep : Char) : List Char → List Char → List (List Char)
  | acc, [] => [acc.reverse]
  | acc, c :: cs =>
    if c = sep then acc.reverse :: splitOnCharAux sep [] cs
    else splitOnCharAux sep (c :: acc) cs

/-- JS `String.prototype.split` with a single-character separator. -/
def jsSplit (s : String) (sep : Char) : List String :=
  (splitOnCharAux sep [] s.data).map (fun l => ⟨l⟩)

/-- JS division on possibly non-finite numbers: division by zero (Infinity
or NaN in JS) and propagation of non-finite operands are all collapsed to
`none`; every comparison below treats `none` as false, exactly as the JS
comparisons on `NaN`/`±Infinity` involved here evaluate to false. -/
def jsDivNum : Option ℚ → Option ℚ → Option ℚ
  | some a, some b => if b = 0 then none else some (qDiv a b)
  | _, _ => none

/-- `Math.abs(x - y) < c` over possibly non-finite operands. -/
def jsAbsSubLt (x y : Option ℚ) (c : ℚ) : Bool :=
  match x, y with
  | some a, some b => decide (qAbs (qSub a b) < c)
  | _, _ => false

/-- `width / height` of `previewPrompt` (app.js lines 2192-2195). -/
def actualRatioNum (outputWidth outputHeight : String) : Option ℚ :=
  jsDivNum ((jsParseInt outputWidth).map (fun i => (i : ℚ)))
    ((jsParseInt outputHeight).map (fun i => (i : ℚ)))

/-- `ratioW / ratioH` from `outputAspectRatio.split(':').map(Number)`
(app.js lines 2194-2196); a missing second component is `undefined`,
converting to `NaN`. -/
def expectedRatioNum (outputAspectRatio : String) : Option ℚ :=
  match jsSplit outputAspectRatio ':' with
  | [] => none
  | [a] => jsDivNum (jsNumber a) none
  | a :: b :: _ => jsDivNum (jsNumber a) (jsNumber b)

/-- Does the selected ratio match the actual width/height within `tol`
(the comparison of app.js line 2199, parameterized by the tolerance)? -/
def matchesWithin (outputWidth outputHeight outputAspectRatio : String)
    (tol : ℚ) : Bool :=
  jsAbsSubLt (actualRatioNum outputWidth outputHeight)
    (expectedRatioNum outputAspectRatio) tol

/-- The aspect-ratio output fragment of `previewPrompt` (app.js lines
2190-2202): emitted only when the ratio is not `custom` and matches the
actual dimensions within the hard-coded `0.01` tolerance. -/
def aspectRatioFragment (outputWidth outputHeight outputAspectRatio : String) :
    String :=
  if outputAspectRatio ≠ "custom" then
    if matchesWithin outputWidth outputHeight outputAspectRatio (mkRat 1 100) then
      ", " ++ outputAspectRatio ++ " aspect ratio"
    else ""
  else ""

/-- The fixed ratio table of `syncAspectRatioToDimensions` (app.js lines
2429-2436), in iteration order. -/
def aspectRatios : List (String × ℚ) :=
  [("1:1", 1), ("4:3", mkRat 4 3), ("16:9", mkRat 16 9), ("3:2", mkRat 3 2),
   ("21:9", mkRat 21 9), ("9:16", mkRat 9 16)]

/-- One iteration of the closest-ratio loop (app.js lines 2438-2444); the
accumulator holds `(closestRatio, minDiff)` with `none` for the initial
`Infinity`. -/
def closestStep (r : ℚ) (acc : String × Option ℚ) (p : String × ℚ) :
    String × Option ℚ :=
  let diff := qAbs (qSub r p.2)
  match acc.2 with
  | none => (p.1, some diff)
  | some m => if diff < m then (p.1, some diff) else acc

/-- The loop of `syncAspectRatioToDimensions` over the whole table,
starting from `('custom', Infinity)`. -/
def closestRatioScan (r : ℚ) : String × Option ℚ :=
  aspectRatios.foldl (closestStep r) ("custom", none)

/-- Core of `syncAspectRatioToDimensions` (app.js lines 2417-2452) on the
parsed integer width and height: nearest ratio of the table, demoted to
`"custom"` when the minimal deviation exceeds `0.05`. -/
def inferAspectRatio (w h : ℤ) : String :=
  let ratio := qDiv (w : ℚ) (h : ℚ)
  let acc := closestRatioScan ratio
  match acc.2 with
  | some m => if m > mkRat 1 20 then "custom" else acc.1
  | none => "custom"

/-- `syncAspectRatioToDimensions` on the raw field values: a `NaN` width
or height returns early, leaving the select unchanged. -/
def syncAspectRatioToDimensions (widthValue heightValue currentAspect : String) :
    String :=
  match jsParseInt widthValue, jsParseInt heightValue with
  | some w, some h => inferAspectRatio w h
  | _, _ => currentAspect

/-- The deviations `|actual − expected|` over the fixed ratio table. -/
def deviations (r : ℚ) : List ℚ :=
  aspectRatios.map (fun p => qAbs (qSub r p.2))

/-- The minimum deviation of `r` from the fixed ratio table. -/
def minDeviation (r : ℚ) : ℚ :=
  match deviations r with
  | [] => 0
  | d :: ds => ds.foldl min d

/-! ## The Selection snapshot and `previewPrompt` -/

/-- Snapshot of every interactive field read by `previewPrompt`
(app.js lines 1914-2220). Visibility booleans model the
`offsetParent !== null` tests; `colorPaletteNames` is the list of color
names returned by `getCurrentColorPalette` for the current palette mode;
`tennerDataLoaded` models `this.tennerData && this.tennerData.categories`. -/
structure Selection where
  tennerPoseVisible : Bool
  tennerPose : String
  customPoseText : String
  tennerOrientationVisible : Bool
  tennerOrientation : String
  customOrientationText : String
  assemblePoseVisible : Bool
  assemblePose : String
  sceneManual : String
  assembleScene : String
  assembleLighting : String
  assembleFilmType : String
  assembleTexture : String
  assembleFilmStock : String
  assembleCamera : String
  assembleWardrobe : String
  assembleProps : String
  tapeMarkings : Bool
  tennerMode : String
  tenner1 : String
  tenner2 : String
  tenner3 : String
  tenner1Specific : String
  tenner2Specific : String
  tenner3Specific : String
  colorPaletteNames : List String
  tennerDataLoaded : Bool
  outputWidth : String
  outputHeight : String
  outputAspectRatio : String
  outputQuality : String
  outputFormat : String
  outputColorSpace : String
  deriving Repr, DecidableEq

/-- `previewPrompt` (app.js lines 1914-2220): the composed prompt text and
the separate Tenner metadata line (`null` when no Tenner information is
shown), built fragment by fragment in source order. -/
def previewPrompt (sel : Selection) : String × Option String :=
  let pose :=
    if sel.tennerPoseVisible then
      if sel.tennerPose = "" then ""
      else if sel.tennerPose = "custom" then
        (if jsTrim sel.customPoseText ≠ "" then jsTrim sel.customPoseText
         else "custom pose")
      else sel.tennerPose
    else if sel.assemblePoseVisible then sel.assemblePose
    else ""
  let orientation :=
    if sel.tennerPoseVisible && sel.tennerOrientationVisible then
      if sel.tennerOrientation = "" then ""
      else if sel.tennerOrientation = "custom" then
        (if jsTrim sel.customOrientationText ≠ "" then jsTrim sel.customOrientationText
         else "custom orientation")
      else sel.tennerOrientation
    else ""
  let scene :=
    if jsTrim sel.sceneManual ≠ "" then jsTrim sel.sceneManual
    else getFilterValue sel.assembleScene "piazza_v2"
  let lighting := getFilterValue sel.assembleLighting "lighting_001"
  let filmType := getFilterValue sel.assembleFilmType "stop_motion"
  let texture := getFilterValue sel.assembleTexture "texture_001"
  let filmStock := getFilterValue sel.assembleFilmStock "kodak_portra_400"
  let camera := getFilterValue sel.assembleCamera "camera_001"
  let tripodHeight :=
    match cameraHeight camera with
    | some h => if h = "" then "1.0" else h
    | none => "1.0"
  let wardrobe := getFilterValue sel.assembleWardrobe "none"
  let props := getFilterValue sel.assembleProps "none"
  let outputWidth := getFilterValue sel.outputWidth "1024"
  let outputHeight := getFilterValue sel.outputHeight "1024"
  let outputAspectRatio := getFilterValue sel.outputAspectRatio "16:9"
  let outputQuality := getFilterValue sel.outputQuality "high"
  let outputFormat := getFilterValue sel.outputFormat "png"
  let outputColorSpace := getFilterValue sel.outputColorSpace "sRGB"
  let characterName :=
    match jsMatchT1Specific sel.tenner1Specific with
    | some nm => nm
    | none => "A character"
  let prompt :=
    if pose ≠ "" then
      if sel.tennerPoseVisible && sel.tennerPose == "custom" &&
          jsTrim sel.customPoseText != "" then
        characterName ++ " " ++ pose
      else
        characterName ++ " in a " ++ jsReplaceFirst pose "_" " " ++ " pose"
    else characterName
  let prompt := prompt ++
    (if orientation ≠ "" then
      if sel.tennerOrientationVisible && sel.tennerOrientation == "custom" &&
          jsTrim sel.customOrientationText != "" then
        ", " ++ orientation
      else ", " ++ jsReplaceFirst orientation "_" " " ++ " orientation"
    else "")
  let prompt := prompt ++
    (if scene ≠ "all" then
      if scene = "greenscreen_v1" then
        greenScreenScenePhrase ++ (if sel.tapeMarkings then tapeMarkingsPhrase else "")
      else " at a " ++ jsReplaceFirst scene "_" " "
    else "")
  let prompt := prompt ++ lightingFragment lighting
  let prompt := prompt ++
    (if filmType ≠ "all" then " in " ++ jsReplaceFirst filmType "_" " " ++ " style"
     else "")
  let prompt := prompt ++
    (if texture ≠ "" then
      match texturePhrases.lookup texture with
      | some p => ". " ++ p
      | none => ""
    else "")
  let prompt := prompt ++
    (if sel.colorPaletteNames.length > 0 then
      " with " ++ String.intercalate ", " sel.colorPaletteNames ++ " color palette"
    else "")
  let prompt := prompt ++ filmStockFragment filmStock
  let prompt := prompt ++
    (if wardrobe ≠ "none" then " wearing a " ++ jsReplaceFirst wardrobe "_" " "
     else "")
  let prompt := prompt ++
    (if props ≠ "none" then " holding a " ++ jsReplaceFirst props "_" " "
     else "")
  let prompt := prompt ++
    (if camera ≠ "" then
      match cameraDescriptions.lookup camera with
      | some d =>
        ". " ++ jsReplaceFirst d "{HEIGHT}"
          (if tripodHeight = "1.0" then "1 meter" else tripodHeight ++ " meters")
      | none => ""
    else "")
  let mode := if sel.tennerMode = "" then "single" else sel.tennerMode
  let selectedTenners := selectedTennersOf sel.tenner1 sel.tenner2 sel.tenner3
  let selectedSpecifics :=
    [sel.tenner1Specific, sel.tenner2Specific, sel.tenner3Specific].filter
      (fun s => s != "")
  let prompt := prompt ++
    (if selectedTenners.length > 0 && sel.tennerDataLoaded && mode == "single" then
      String.join (selectedSpecifics.map (fun s =>
        match jsMatchTennerSpecific s with
        | some d => " " ++ d
        | none => ""))
    else "")
  let tennerInfo : Option String :=
    if selectedTenners.length > 0 && sel.tennerDataLoaded then
      if mode = "single" then
        if selectedSpecifics.length > 0 then
          some ("Single Mode: " ++ String.intercalate ", " selectedTenners ++
            " - " ++ String.intercalate ", " selectedSpecifics)
        else
          some ("Single Mode: " ++ String.intercalate ", " selectedTenners ++
            " (specific options not selected)")
      else
        some ("Batch Mode: " ++ String.intercalate ", " selectedTenners ++
          " (" ++ toString (batchPermutationCount selectedTenners) ++ " permutations)")
    else none
  let prompt := prompt ++
    (if outputWidth != "custom" && outputHeight != "custom" then
      ", " ++ outputWidth ++ "x" ++ outputHeight ++ " pixels"
    else "")
  let prompt := prompt ++ aspectRatioFragment outputWidth outputHeight outputAspectRatio
  let prompt := prompt ++
    (if outputQuality ≠ "standard" then ", " ++ outputQuality ++ " quality" else "")
  let prompt := prompt ++
    (if outputFormat ≠ "png" then ", " ++ jsToUpperCase outputFormat ++ " format"
     else "")
  let prompt := prompt ++
    (if outputColorSpace ≠ "sRGB" then ", " ++ outputColorSpace ++ " color space"
     else "")
  let prompt := prompt ++ ", 3D stop-motion style, high quality, detailed"
  (prompt, tennerInfo)

/-- The reference end-to-end selection of the specification: pose
`arms_open_welcome` through the assemble pose field, scene `piazza_v2`,
lighting `lighting_001`, film type `stop_motion`, texture `texture_001`,
film stock `kodak_portra_400`, camera `camera_001`, wardrobe and props
`none`, no Tenners, no palette, default output parameters. -/
def referenceSelection : Selection :=
  { tennerPoseVisible := false
    tennerPose := ""
    customPoseText := ""
    tennerOrientationVisible := false
    tennerOrientation := ""
    customOrientationText := ""
    assemblePoseVisible := true
    assemblePose := "arms_open_welcome"
    sceneManual := ""
    assembleScene := "piazza_v2"
    assembleLighting := "lighting_001"
    assembleFilmType := "stop_motion"
    assembleTexture := "texture_001"
    assembleFilmStock := "kodak_portra_400"
    assembleCamera := "camera_001"
    assembleWardrobe := "none"
    assembleProps := "none"
    tapeMarkings := false
    tennerMode := "single"
    tenner1 := ""
    tenner2 := ""
    tenner3 := ""
    tenner1Specific := ""
    tenner2Specific := ""
    tenner3Specific := ""
    colorPaletteNames := []
    tennerDataLoaded := true
    outputWidth := "1024"
    outputHeight := "1024"
    outputAspectRatio := "16:9"
    outputQuality := "high"
    outputFormat := "png"
    outputColorSpace := "sRGB" }

/-! ## Supporting lemmas -/

theorem intDivQ_eq (n d : ℤ) : intDivQ n d = (n : ℚ) / (d : ℚ) := by
  unfold intDivQ
  split_ifs with h
  · rw [Rat.mkRat_eq_divInt, Rat.divInt_eq_div]
    rw [Int.toNat_of_nonneg h]
  · rw [Rat.mkRat_eq_divInt, Rat.divInt_eq_div]
    rw [Int.toNat_of_nonneg (by omega : (0:ℤ) ≤ -d)]
    push_cast
    rw [neg_div_neg_eq]

theorem qSub_eq (a b : ℚ) : qSub a b = a - b := by
  have ha : ((a.den : ℚ)) ≠ 0 := by
    exact_mod_cast a.den_nz
  have hb : ((b.den : ℚ)) ≠ 0 := by
    exact_mod_cast b.den_nz
  unfold qSub
  rw [Rat.mkRat_eq_divInt, Rat.divInt_eq_div]
  conv_rhs => rw [← Rat.num_div_den a, ← Rat.num_div_den b]
  rw [div_sub_div _ _ ha hb]
  push_cast
  ring_nf

theorem qAbs_eq (a : ℚ) : qAbs a = |a| := by
  unfold qAbs
  split_ifs with h
  · rw [abs_of_neg h]
    rw [Rat.mkRat_eq_divInt, Rat.divInt_eq_div]
    push_cast
    rw [neg_div]
    rw [Rat.num_div_den]
  · rw [abs_of_nonneg (not_lt.mp h)]

theorem qDiv_eq (a b : ℚ) : qDiv a b = a / b := by
  unfold qDiv
  rw [intDivQ_eq]
  rcases eq_or_ne b 0 with hb | hb
  · subst hb
    simp
  · have hbn : (b.num : ℚ) ≠ 0 := by
      exact_mod_cast Rat.num_ne_zero.mpr hb
    have ha : ((a.den : ℚ)) ≠ 0 := by
      exact_mod_cast a.den_nz
    have hbd : ((b.den : ℚ)) ≠ 0 := by
      exact_mod_cast b.den_nz
    have haa : (a.num : ℚ) = a * a.den := (div_eq_iff ha).mp (Rat.num_div_den a)
    have hbb : (b.num : ℚ) = b * b.den := (div_eq_iff hbd).mp (Rat.num_div_den b)
    push_cast
    rw [div_eq_div_iff (mul_ne_zero ha hbn) hb]
    rw [haa, hbb]
    ring

theorem charListLt_nil_right (a : List Char) : charListLt a [] = false := by
  cases a <;> rfl

theorem charListLt_cons_iff {x y : Char} {xs ys : List Char} :
    charListLt (x :: xs) (y :: ys) = true ↔
      (x < y ∨ (x = y ∧ charListLt xs ys = true)) := by
  simp only [charListLt]
  split_ifs with h1 h2
  · simp [h1]
  · have hne : x ≠ y := ne_of_gt h2
    simp [h1, hne]
  · have hxy : x = y := le_antisymm (not_lt.mp h2) (not_lt.mp h1)
    simp [h1, hxy]

theorem charListLt_asymm :
    ∀ a b : List Char, charListLt a b = true → charListLt b a = false := by
  intro a
  induction a with
  | nil =>
    intro b _
    exact charListLt_nil_right b
  | cons x xs ih =>
    intro b h
    cases b with
    | nil => rw [charListLt_nil_right] at h; exact absurd h (by simp)
    | cons y ys =>
      rw [charListLt_cons_iff] at h
      rw [Bool.eq_false_iff]
      intro hba
      rw [charListLt_cons_iff] at hba
      rcases h with h | ⟨hxy, h⟩
      · rcases hba with hba | ⟨hyx, _⟩
        · exact absurd hba (not_lt.mpr (le_of_lt h))
        · exact absurd hyx (ne_of_gt h)
      · subst hxy
        rcases hba with hba | ⟨_, hba⟩
        · exact absurd hba (lt_irrefl x)
        · have := ih ys h
          rw [hba] at this
          exact absurd this (by simp)

theorem charListLt_trans :
    ∀ a b c : List Char, charListLt a b = true → charListLt b c = true →
      charListLt a c = true := by
  intro a
  induction a with
  | nil =>
    intro b c hab hbc
    cases b with
    | nil => rw [charListLt_nil_right] at hab; exact absurd hab (by simp)
    | cons y ys =>
      cases c with
      | nil => rw [charListLt_nil_right] at hbc; exact absurd hbc (by simp)
      | cons z zs => rfl
  | cons x xs ih =>
    intro b c hab hbc
    cases b with
    | nil => rw [charListLt_nil_right] at hab; exact absurd hab (by simp)
    | cons y ys =>
      cases c with
      | nil => rw [charListLt_nil_right] at hbc; exact absurd hbc (by simp)
      | cons z zs =>
        rw [charListLt_cons_iff] at hab hbc ⊢
        rcases hab with hab | ⟨hxy, hab⟩
        · rcases hbc with hbc | ⟨hyz, _⟩
          · exact Or.inl (lt_trans hab hbc)
          · exact Or.inl (hyz ▸ hab)
        · subst hxy
          rcases hbc with hbc | ⟨hyz, hbc⟩
          · exact Or.inl hbc
          · exact Or.inr ⟨hyz, ih ys zs hab hbc⟩

theorem charListLt_conn :
    ∀ a b : List Char, charListLt a b = false → charListLt b a = false →
      a = b := by
  intro a
  induction a with
  | nil =>
    intro b hab _
    cases b with
    | nil => rfl
    | cons y ys => exact absurd hab (by simp [charListLt])
  | cons x xs ih =>
    intro b hab hba
    cases b with
    | nil => exact absurd hba (by simp [charListLt])
    | cons y ys =>
      rw [Bool.eq_false_iff] at hab hba
      rcases lt_trichotomy x y with hxy | hxy | hxy
      · exact absurd (charListLt_cons_iff.mpr (Or.inl hxy)) hab
      · subst hxy
        have h1 : charListLt xs ys = false := by
          rw [Bool.eq_false_iff]
          intro h
          exact hab (charListLt_cons_iff.mpr (Or.inr ⟨rfl, h⟩))
        have h2 : charListLt ys xs = false := by
          rw [Bool.eq_false_iff]
          intro h
          exact hba (charListLt_cons_iff.mpr (Or.inr ⟨rfl, h⟩))
        rw [ih ys h1 h2]
      · exact absurd (charListLt_cons_iff.mpr (Or.inl hxy)) hba

theorem jsLeStr_total (a b : String) : jsLeStr a b = true ∨ jsLeStr b a = true := by
  unfold jsLeStr
  by_cases h : charListLt b.data a.data = true
  · right
    rw [charListLt_asymm _ _ h]
    rfl
  · left
    rw [Bool.not_eq_true] at h
    rw [h]
    rfl

theorem jsLeStr_trans (a b c : String) (hab : jsLeStr a b = true)
    (hbc : jsLeStr b c = true) : jsLeStr a c = true := by
  unfold jsLeStr at hab hbc ⊢
  rw [Bool.not_eq_true'] at hab hbc ⊢
  by_contra hca
  rw [Bool.not_eq_false] at hca
  by_cases hba : charListLt a.data b.data = true
  · rw [charListLt_trans _ _ _ hca hba] at hbc
    exact absurd hbc (by simp)
  · rw [Bool.not_eq_true] at hba
    have := charListLt_conn _ _ hba hab
    rw [this] at hca
    rw [hca] at hbc
    exact absurd hbc (by simp)

theorem jsLeStr_antisymm (a b : String) (hab : jsLeStr a b = true)
    (hba : jsLeStr b a = true) : a = b := by
  unfold jsLeStr at hab hba
  rw [Bool.not_eq_true'] at hab hba
  cases a with
  | mk da =>
    cases b with
    | mk db =>
      have h : da = db := charListLt_conn da db hba hab
      rw [h]

instance : IsTotal String (fun a b => jsLeStr a b = true) := ⟨jsLeStr_total⟩

instance : IsTrans String (fun a b => jsLeStr a b = true) :=
  ⟨fun a b c => jsLeStr_trans a b c⟩

instance : IsAntisymm String (fun a b => jsLeStr a b = true) :=
  ⟨fun a b => jsLeStr_antisymm a b⟩

theorem jsSort_sorted (l : List String) :
    (jsSort l).Sorted (fun a b => jsLeStr a b = true) :=
  List.sorted_insertionSort _ l

theorem jsSort_perm (l : List String) : (jsSort l).Perm l :=
  List.perm_insertionSort _ l

/-- Sorting is a canonicalizer: permuting the input does not change the
sorted output. -/
theorem jsSort_eq_of_perm {l l' : List String} (h : l.Perm l') :
    jsSort l = jsSort l' :=
  List.eq_of_perm_of_sorted ((jsSort_perm l).trans (h.trans (jsSort_perm l').symm))
    (jsSort_sorted l) (jsSort_sorted l')

theorem mkRat_tol_eq : (mkRat 1 20 : ℚ) = 1 / 20 := by
  rw [Rat.mkRat_eq_divInt, Rat.divInt_eq_div]
  norm_num

theorem mkRat_tol01_eq : (mkRat 1 100 : ℚ) = 1 / 100 := by
  rw [Rat.mkRat_eq_divInt, Rat.divInt_eq_div]
  norm_num

theorem closestStep_some (r : ℚ) (cs : String) (m : ℚ) (p : String × ℚ) :
    closestStep r (cs, some m) p =
      (if qAbs (qSub r p.2) < m then (p.1, some (qAbs (qSub r p.2)))
       else (cs, some m)) := rfl

/-- The second component of the closest-ratio loop is the running minimum
of the deviations. -/
theorem closestScan_min (r : ℚ) :
    ∀ (L : List (String × ℚ)) (cs : String) (m : ℚ),
      (L.foldl (closestStep r) (cs, some m)).2 =
        some (L.foldl (fun a p => min a (qAbs (qSub r p.2))) m) := by
  intro L
  induction L with
  | nil => intro cs m; rfl
  | cons p L ih =>
    intro cs m
    simp only [List.foldl_cons, closestStep_some]
    split_ifs with h
    · rw [ih]
      rw [min_eq_right h.le]
    · rw [ih]
      rw [min_eq_left (not_lt.mp h)]

/-- The first component of the closest-ratio loop always names a table
entry whose deviation equals the running minimum. -/
theorem closestScan_achieves (r : ℚ) :
    ∀ (L : List (String × ℚ)) (cs : String) (m : ℚ),
      (∃ v, (cs, v) ∈ aspectRatios ∧ qAbs (qSub r v) = m) →
      (∀ p ∈ L, p ∈ aspectRatios) →
      ∃ v, ((L.foldl (closestStep r) (cs, some m)).1, v) ∈ aspectRatios ∧
        some (qAbs (qSub r v)) = (L.foldl (closestStep r) (cs, some m)).2 := by
  intro L
  induction L with
  | nil =>
    intro cs m hex _
    obtain ⟨v, hv, hm⟩ := hex
    exact ⟨v, hv, by simp [hm]⟩
  | cons p L ih =>
    intro cs m hex hsub
    simp only [List.foldl_cons, closestStep_some]
    split_ifs with h
    · refine ih p.1 _ ⟨p.2, ?_, rfl⟩ (fun q hq => hsub q (List.mem_cons_of_mem _ hq))
      have := hsub p (List.mem_cons_self _ _)
      simpa using this
    · exact ih cs m hex (fun q hq => hsub q (List.mem_cons_of_mem _ hq))

theorem minDeviation_eq_foldl (r : ℚ) :
    minDeviation r = (aspectRatios.tail).foldl
      (fun a p => min a (qAbs (qSub r p.2))) (qAbs (qSub r 1)) := by
  show (deviations r).tail.foldl min (qAbs (qSub r 1)) = _
  rw [show (deviations r).tail =
      (aspectRatios.tail).map (fun p => qAbs (qSub r p.2)) from rfl]
  rw [List.foldl_map]

/-- The closest-ratio loop computes exactly the minimum deviation and an
entry achieving it. -/
theorem closestRatioScan_spec (r : ℚ) :
    (closestRatioScan r).2 = some (minDeviation r) ∧
    ∃ v, ((closestRatioScan r).1, v) ∈ aspectRatios ∧
      qAbs (qSub r v) = minDeviation r := by
  have h0 : closestRatioScan r =
      (aspectRatios.tail).foldl (closestStep r) ("1:1", some (qAbs (qSub r 1))) := rfl
  constructor
  · rw [h0, closestScan_min, minDeviation_eq_foldl]
  · have hach := closestScan_achieves r aspectRatios.tail "1:1" (qAbs (qSub r 1))
      ⟨1, by decide, rfl⟩ (fun q hq => List.mem_of_mem_tail hq)
    obtain ⟨v, hv, heq⟩ := hach
    refine ⟨v, by rw [h0]; exact hv, ?_⟩
    rw [closestScan_min, ← minDeviation_eq_foldl] at heq
    exact Option.some.inj heq

theorem foldl_min_le_init (l : List ℚ) : ∀ a : ℚ, l.foldl min a ≤ a := by
  induction l with
  | nil => intro a; exact le_refl a
  | cons d ds ih =>
    intro a
    simp only [List.foldl_cons]
    exact le_trans (ih (min a d)) (min_le_left _ _)

theorem foldl_min_le_mem (l : List ℚ) : ∀ (a x : ℚ), x ∈ l → l.foldl min a ≤ x := by
  induction l with
  | nil => intro a x h; simp at h
  | cons d ds ih =>
    intro a x h
    simp only [List.foldl_cons]
    rcases List.mem_cons.mp h with h | h
    · subst h
      exact le_trans (foldl_min_le_init ds (min a x)) (min_le_right _ _)
    · exact ih (min a d) x h

theorem foldl_min_le (l : List ℚ) (a x : ℚ) (h : x = a ∨ x ∈ l) :
    l.foldl min a ≤ x := by
  rcases h with h | h
  · exact h ▸ foldl_min_le_init l a
  · exact foldl_min_le_mem l a x h

/-- `minDeviation` is a lower bound of all deviations from the table. -/
theorem minDeviation_le (r : ℚ) :
    ∀ p ∈ aspectRatios, minDeviation r ≤ qAbs (qSub r p.2) := by
  intro p hp
  have hmem : qAbs (qSub r p.2) ∈ deviations r := List.mem_map_of_mem _ hp
  show (deviations r).tail.foldl min (qAbs (qSub r 1)) ≤ _
  have hd : deviations r = qAbs (qSub r 1) :: (deviations r).tail := rfl
  rw [hd] at hmem
  rcases List.mem_cons.mp hmem with h | h
  · exact foldl_min_le _ _ _ (Or.inl h)
  · exact foldl_min_le _ _ _ (Or.inr h)

/-- The comparison of app.js line 2199 holds exactly when both operands are
finite and the real absolute difference is below the tolerance. -/
theorem jsAbsSubLt_iff (x y : Option ℚ) (c : ℚ) :
    jsAbsSubLt x y c = true ↔
      ∃ a e : ℚ, x = some a ∧ y = some e ∧ |a - e| < c := by
  cases x <;> cases y <;> simp [jsAbsSubLt, qAbs_eq, qSub_eq]

/-! ## Claim theorems -/

set_option maxRecDepth 8192 in
/-- C1: for the end-to-end reference selection (pose `arms_open_welcome`,
scene `piazza_v2`, lighting `lighting_001`, film type `stop_motion`,
texture `texture_001`, film stock `kodak_portra_400`, camera `camera_001`,
wardrobe and props `none`), the composed prompt contains, in this order:
the emitted pose phrase, the emitted scene phrase, the complete
`lighting_001` dictionary sentence, the phrase "in stop motion style", the
complete `texture_001` sentence, the complete `kodak_portra_400` sentence,
and the `camera_001` sentence with the height placeholder substituted, which
contains the literal substring "1 meter". -/
theorem c1_end_to_end_reference_prompt :
    ∃ g0 g1 g2 g3 g4 g5 g6 g7 c1 c2 : String,
      (previewPrompt referenceSelection).1 =
        g0 ++ "in a arms open_welcome pose" ++
        g1 ++ "at a piazza v2" ++
        g2 ++ ((lightingPhrases.lookup "lighting_001").getD "") ++
        g3 ++ "in stop motion style" ++
        g4 ++ ((texturePhrases.lookup "texture_001").getD "") ++
        g5 ++ ((filmStockPhrases.lookup "kodak_portra_400").getD "") ++
        g6 ++ (c1 ++ "1 meter" ++ c2) ++ g7 ∧
      c1 ++ "1 meter" ++ c2 =
        jsReplaceFirst ((cameraDescriptions.lookup "camera_001").getD "")
          "{HEIGHT}" "1 meter" := by
  refine ⟨"A character ", " ", " with ", " ", ". ", ". ", ". ",
    ", 1024x1024 pixels, high quality, 3D stop-motion style, high quality, detailed",
    "Captured on a miniature stop-motion stage using a fixed camera at 35mm lens, tripod height ",
    ", angled 0° downward, positioned at stage center", ?_, ?_⟩ <;> decide

/-- C2: chunk classification is order-independent: permuting the selected
Tenner dimension ids (and arbitrarily changing the ignored specifics and
mode arguments) yields the same chunk id; moreover, when no predefined
chunk matches, the synthesized identifier is `CUSTOM_` followed by the ids
joined in sorted order, hence also permutation-invariant. -/
theorem c2_chunk_classification_order_independent
    (t t' s s' : List String) (m m' : String) (h : t.Perm t') :
    generateChunkId t s m = generateChunkId t' s' m' ∧
    (loadChunkMappings.find?
        (fun p => arraysEqual (jsSort t) (jsSort p.2)) = none → t ≠ [] →
      generateChunkId t s m = "CUSTOM_" ++ String.intercalate "_" (jsSort t)) := by
  constructor
  · unfold generateChunkId
    have hs : jsSort t = jsSort t' := jsSort_eq_of_perm h
    have hlen : t.length = t'.length := h.length_eq
    have hempty : t.isEmpty = t'.isEmpty := by
      cases t <;> cases t' <;> simp_all
    rw [hs, hempty]
  · intro hfind hne
    unfold generateChunkId
    rw [if_neg (by simpa [List.isEmpty_iff] using hne)]
    show (match loadChunkMappings.find?
        (fun p => arraysEqual (jsSort t) (jsSort p.2)) with
      | some p => p.1
      | none => "CUSTOM_" ++ String.intercalate "_" (jsSort t)) = _
    rw [hfind]

theorem c2_witness :
    (["T2", "T1", "T4"] : List String).Perm ["T1", "T2", "T4"] ∧
    (generateChunkId ["T2", "T1", "T4"] [] "single" =
      generateChunkId ["T1", "T2", "T4"] ["T1-0: x"] "batch" ∧
     (loadChunkMappings.find?
        (fun p => arraysEqual (jsSort ["T2", "T1", "T4"]) (jsSort p.2)) = none →
      ["T2", "T1", "T4"] ≠ ([] : List String) →
      generateChunkId ["T2", "T1", "T4"] [] "single" =
        "CUSTOM_" ++ String.intercalate "_" (jsSort ["T2", "T1", "T4"]))) :=
  ⟨by decide, c2_chunk_classification_order_independent
    ["T2", "T1", "T4"] ["T1", "T2", "T4"] [] ["T1-0: x"] "single" "batch" (by decide)⟩

/-- C3: the chunk classifier maps the selected set `{T1,T2,T4}` to
`CHUNK1` and `{T6,T7}` to `CHUNK3`; for `{T5}` no predefined chunk matches
(the table search returns `none`), and the produced identifier is
`CUSTOM_T5`. -/
theorem c3_chunk_classification_values :
    generateChunkId ["T1", "T2", "T4"] [] "single" = "CHUNK1" ∧
    generateChunkId ["T6", "T7"] [] "single" = "CHUNK3" ∧
    loadChunkMappings.find?
      (fun p => arraysEqual (jsSort ["T5"]) (jsSort p.2)) = none ∧
    generateChunkId ["T5"] [] "single" = "CUSTOM_T5" :=
  ⟨by decide, by decide, by decide, by decide⟩

/-- C4: in batch mode the planned permutation count is `10^k` for `k`
selected Tenner dimensions: the hard-coded branch counts of
`updateTennerStatus` report 10, 100 and 1000 for one, two and three
dimensions, equalling `10^k` for every selection the three dropdowns can
produce with `k ≥ 1`, and the `Math.pow(10, k)` count of `previewPrompt`
equals `10^k` for every list. -/
theorem c4_batch_permutation_counts :
    batchPermutationsReported ["T1"] = some 10 ∧
    batchPermutationsReported ["T1", "T2"] = some 100 ∧
    batchPermutationsReported ["T1", "T2", "T3"] = some 1000 ∧
    (∀ t1 t2 t3 : String, 1 ≤ (selectedTennersOf t1 t2 t3).length →
      batchPermutationsReported (selectedTennersOf t1 t2 t3) =
        some (10 ^ (selectedTennersOf t1 t2 t3).length)) ∧
    (∀ l : List String, batchPermutationCount l = 10 ^ l.length) := by
  refine ⟨by decide, by decide, by decide, ?_, fun l => rfl⟩
  intro t1 t2 t3 h1
  have h3 : (selectedTennersOf t1 t2 t3).length ≤ 3 := List.length_filter_le _ _
  generalize hl : selectedTennersOf t1 t2 t3 = l at h1 h3 ⊢
  have hcase : l.length = 1 ∨ l.length = 2 ∨ l.length = 3 := by omega
  rcases hcase with h | h | h <;> simp [batchPermutationsReported, h]

theorem c4_witness :
    1 ≤ (selectedTennersOf "T1" "" "").length ∧
    batchPermutationsReported (selectedTennersOf "T1" "" "") =
      some (10 ^ (selectedTennersOf "T1" "" "").length) :=
  ⟨by decide, c4_batch_permutation_counts.2.2.2.1 "T1" "" "" (by decide)⟩

/-- C5: the camera-to-tripod-height table is a total function over exactly
the ten camera ids `camera_001` .. `camera_010`, and syncing with
`camera_003` always sets the tripod height to `0.5` (and disables the
field), regardless of the previous state. -/
theorem c5_camera_tripod_canonical_sync :
    cameraHeightMapping.map (fun p => p.1) = cameraIds ∧
    cameraIds.all (fun c => (cameraHeight c).isSome) = true ∧
    ∀ st : TripodState, syncTripodHeightToCamera "camera_003" st =
      { value := "0.5", disabled := true } :=
  ⟨by decide, by decide, fun _ => rfl⟩

/-- C6: the inferred aspect ratio for width 1024 and height 768 is `4:3`;
`minDeviation` really is a lower bound of the deviations `|actual −
expected|` over the fixed table `{1:1, 4:3, 16:9, 3:2, 21:9, 9:16}`; for
every integer width and height, a minimum deviation above `0.05`
(`mkRat 1 20 = 1/20`) yields `"custom"`, and otherwise the inferred ratio
is a table member achieving the minimum deviation. -/
theorem c6_aspect_ratio_inference :
    inferAspectRatio 1024 768 = "4:3" ∧
    (mkRat 1 20 : ℚ) = 1 / 20 ∧
    (∀ r : ℚ, ∀ p ∈ aspectRatios, minDeviation r ≤ |r - p.2|) ∧
    (∀ w h : ℤ,
      (mkRat 1 20 < minDeviation (qDiv (w : ℚ) (h : ℚ)) →
        inferAspectRatio w h = "custom") ∧
      (minDeviation (qDiv (w : ℚ) (h : ℚ)) ≤ mkRat 1 20 →
        ∃ p ∈ aspectRatios, inferAspectRatio w h = p.1 ∧
          |qDiv (w : ℚ) (h : ℚ) - p.2| = minDeviation (qDiv (w : ℚ) (h : ℚ)))) := by
  refine ⟨by decide, mkRat_tol_eq, ?_, ?_⟩
  · intro r p hp
    have := minDeviation_le r p hp
    rwa [qAbs_eq, qSub_eq] at this
  · intro w h
    obtain ⟨hsnd, v, hv, hvd⟩ := closestRatioScan_spec (qDiv (w : ℚ) (h : ℚ))
    constructor
    · intro hgt
      show (match (closestRatioScan (qDiv (w : ℚ) (h : ℚ))).2 with
        | some m => if m > mkRat 1 20 then "custom"
            else (closestRatioScan (qDiv (w : ℚ) (h : ℚ))).1
        | none => "custom") = "custom"
      rw [hsnd]
      simp only [gt_iff_lt]
      rw [if_pos hgt]
    · intro hle
      refine ⟨((closestRatioScan (qDiv (w : ℚ) (h : ℚ))).1, v), hv, ?_, ?_⟩
      · show (match (closestRatioScan (qDiv (w : ℚ) (h : ℚ))).2 with
          | some m => if m > mkRat 1 20 then "custom"
              else (closestRatioScan (qDiv (w : ℚ) (h : ℚ))).1
          | none => "custom") = _
        rw [hsnd]
        simp only [gt_iff_lt]
        rw [if_neg (not_lt.mpr hle)]
      · rw [← qSub_eq, ← qAbs_eq]
        exact hvd

theorem c6_witness :
    (minDeviation (qDiv ((1024 : ℤ) : ℚ) ((768 : ℤ) : ℚ)) ≤ mkRat 1 20 ∧
      ∃ p ∈ aspectRatios, inferAspectRatio 1024 768 = p.1 ∧
        |qDiv ((1024 : ℤ) : ℚ) ((768 : ℤ) : ℚ) - p.2| =
          minDeviation (qDiv ((1024 : ℤ) : ℚ) ((768 : ℤ) : ℚ))) ∧
    (mkRat 1 20 < minDeviation (qDiv ((1 : ℤ) : ℚ) ((2 : ℤ) : ℚ)) ∧
      inferAspectRatio 1 2 = "custom") :=
  ⟨⟨by decide, (c6_aspect_ratio_inference.2.2.2 1024 768).2 (by decide)⟩,
   ⟨by decide, (c6_aspect_ratio_inference.2.2.2 1 2).1 (by decide)⟩⟩

/-- C7 counterexample: at width 1024, height 1000 and ratio `1:1`, the
selected ratio matches the actual dimensions within the `0.05` tolerance
(the deviation is `0.024`), yet the composed prompt gets no aspect-ratio
fragment, because `previewPrompt` uses the stricter `0.01` tolerance. -/
theorem c7_tolerance_counterexample :
    (∃ a e : ℚ, actualRatioNum "1024" "1000" = some a ∧
      expectedRatioNum "1:1" = some e ∧ |a - e| ≤ 1 / 20) ∧
    aspectRatioFragment "1024" "1000" "1:1" = "" := by
  constructor
  · refine ⟨mkRat 1024 1000, 1, by decide, by decide, ?_⟩
    have h1 : (mkRat 1024 1000 : ℚ) = 1024 / 1000 := by
      rw [Rat.mkRat_eq_divInt, Rat.divInt_eq_div]
      norm_num
    rw [h1]
    rw [show |(1024 / 1000 : ℚ) - 1| = 24 / 1000 by
      rw [abs_of_nonneg (by norm_num)]
      norm_num]
    norm_num
  · decide

/-- C7 amended: for every selection whose aspect-ratio value is not
`custom`, the `<ratio> aspect ratio` fragment is appended if and only if
the selected ratio matches the actual width/height within the hard-coded
`0.01` tolerance of `previewPrompt` (strictly), not the `0.05` tolerance
of the aspect-ratio sync; otherwise the fragment is empty. -/
theorem c7_aspect_fragment_tolerance (w h ar : String) (har : ar ≠ "custom") :
    (aspectRatioFragment w h ar = ", " ++ ar ++ " aspect ratio" ↔
      (∃ a e : ℚ, actualRatioNum w h = some a ∧ expectedRatioNum ar = some e ∧
        |a - e| < 1 / 100)) ∧
    (aspectRatioFragment w h ar = ", " ++ ar ++ " aspect ratio" ∨
      aspectRatioFragment w h ar = "") := by
  have hne : (", " ++ ar ++ " aspect ratio" : String) ≠ "" := by
    intro heq
    have := congrArg String.length heq
    simp [String.length_append] at this
    exact absurd this.1.1 (by decide)
  unfold aspectRatioFragment
  rw [if_pos har]
  unfold matchesWithin
  by_cases hm : jsAbsSubLt (actualRatioNum w h) (expectedRatioNum ar) (mkRat 1 100) = true
  · rw [if_pos hm]
    rw [jsAbsSubLt_iff, mkRat_tol01_eq] at hm
    exact ⟨⟨fun _ => hm, fun _ => rfl⟩, Or.inl rfl⟩
  · rw [if_neg hm]
    rw [jsAbsSubLt_iff, mkRat_tol01_eq] at hm
    exact ⟨⟨fun he => absurd he.symm hne, fun he => absurd he hm⟩, Or.inr rfl⟩

theorem c7_witness :
    ("16:9" : String) ≠ "custom" ∧
    ((aspectRatioFragment "1024" "576" "16:9" = ", 16:9 aspect ratio" ↔
       (∃ a e : ℚ, actualRatioNum "1024" "576" = some a ∧
         expectedRatioNum "16:9" = some e ∧ |a - e| < 1 / 100)) ∧
     (aspectRatioFragment "1024" "576" "16:9" = ", 16:9 aspect ratio" ∨
       aspectRatioFragment "1024" "576" "16:9" = "")) :=
  ⟨by decide, c7_aspect_fragment_tolerance "1024" "576" "16:9" (by decide)⟩

/-- C8 counterexample: for the unknown lighting id `studio_soft_box` (not
`all`, absent from the dictionary) the emitted fragment replaces only the
FIRST underscore, so it does not contain the id with all underscores
replaced by spaces; likewise for the unknown film stock `acme_roll_5`. -/
theorem c8_literal_fallback_counterexample :
    lightingPhrases.lookup "studio_soft_box" = none ∧
    lightingFragment "studio_soft_box" = " with studio soft_box lighting" ∧
    ¬ (("studio soft box".data) <:+: (lightingFragment "studio_soft_box").data) ∧
    filmStockPhrases.lookup "acme_roll_5" = none ∧
    filmStockFragment "acme_roll_5" = ". Shot on acme roll_5 film" ∧
    ¬ (("acme roll 5".data) <:+: (filmStockFragment "acme_roll_5").data) :=
  ⟨by decide, by decide, by decide, by decide, by decide, by decide⟩

/-- C8 amended: for every lighting or film-stock id that is not `all` (and,
for film stock, not empty) and is absent from the corresponding phrase
dictionary, composition does not fail: the emitted fragment is built from
the id with its FIRST underscore replaced by a space (the fallback is a
total function, so no error is thrown). -/
theorem c8_literal_fallback_first_underscore (lid fid : String)
    (hl1 : lid ≠ "all") (hl2 : lightingPhrases.lookup lid = none)
    (hf1 : fid ≠ "") (hf2 : fid ≠ "all")
    (hf3 : filmStockPhrases.lookup fid = none) :
    lightingFragment lid = " with " ++ jsReplaceFirst lid "_" " " ++ " lighting" ∧
    filmStockFragment fid = ". Shot on " ++ jsReplaceFirst fid "_" " " ++ " film" := by
  constructor
  · unfold lightingFragment
    rw [if_pos hl1, hl2]
  · unfold filmStockFragment
    rw [if_pos ⟨hf1, hf2⟩, hf3]

theorem c8_witness :
    (("studio_soft_box" : String) ≠ "all" ∧
      lightingPhrases.lookup "studio_soft_box" = none ∧
      ("acme_roll_5" : String) ≠ "" ∧ ("acme_roll_5" : String) ≠ "all" ∧
      filmStockPhrases.lookup "acme_roll_5" = none) ∧
    (lightingFragment "studio_soft_box" =
        " with " ++ jsReplaceFirst "studio_soft_box" "_" " " ++ " lighting" ∧
     filmStockFragment "acme_roll_5" =
        ". Shot on " ++ jsReplaceFirst "acme_roll_5" "_" " " ++ " film") :=
  ⟨⟨by decide, by decide, by decide, by decide, by decide⟩,
   c8_literal_fallback_first_underscore "studio_soft_box" "acme_roll_5"
     (by decide) (by decide) (by decide) (by decide) (by decide)⟩

/-- C9: prompt composition is deterministic: two runs of `previewPrompt`
on equal Selections produce byte-identical prompt text (the embedding is a
pure function of the Selection snapshot; `previewPrompt` reads no clock and
no random source). -/
theorem c9_composition_deterministic (s1 s2 : Selection) (h : s1 = s2) :
    previewPrompt s1 = previewPrompt s2 ∧
    (previewPrompt s1).1 = (previewPrompt s2).1 := by
  subst h
  exact ⟨rfl, rfl⟩

theorem c9_witness :
    referenceSelection = referenceSelection ∧
    (previewPrompt referenceSelection = previewPrompt referenceSelection ∧
     (previewPrompt referenceSelection).1 = (previewPrompt referenceSelection).1) :=
  ⟨rfl, c9_composition_deterministic referenceSelection referenceSelection rfl⟩

/-- C10: with an empty selected-Tenner set, `generateChunkId` returns the
empty string whatever the specifics and mode arguments are, and
`updateTennerStatus` hides the chunk-id display in both single and batch
mode, leaving its text untouched, so no chunk id is surfaced. -/
theorem c10_empty_selection_no_chunk_id (s : List String)
    (modeRaw t1 t2 t3 s1 s2 s3 : String) (prev : TennerStatusView)
    (hsel : selectedTennersOf t1 t2 t3 = []) :
    generateChunkId [] s modeRaw = "" ∧
    (updateTennerStatus modeRaw t1 t2 t3 s1 s2 s3 prev).chunkVisible = false ∧
    (updateTennerStatus modeRaw t1 t2 t3 s1 s2 s3 prev).chunkIdText =
      prev.chunkIdText := by
  refine ⟨rfl, ?_, ?_⟩ <;>
  · by_cases hm : (if modeRaw = "" then "single" else modeRaw) = "single" <;>
      simp [updateTennerStatus, hsel, hm]

theorem c10_witness :
    selectedTennersOf "" "none" "" = [] ∧
    (generateChunkId [] ["T1-0: x"] "batch" = "" ∧
     (updateTennerStatus "batch" "" "none" "" "" "" ""
        ⟨"old status", true, "CHUNK1"⟩).chunkVisible = false ∧
     (updateTennerStatus "batch" "" "none" "" "" "" ""
        ⟨"old status", true, "CHUNK1"⟩).chunkIdText = "CHUNK1") :=
  ⟨by decide, c10_empty_selection_no_chunk_id ["T1-0: x"] "batch" "" "none" "" "" "" ""
    ⟨"old status", true, "CHUNK1"⟩ (by decide)⟩
